import Mathlib

/-
Verification development for the agentic-workflow repository: the event
reconciliation, derived-state and aggregation engine (frontend App component),
the reconnecting stream client, the broker's event validator (server.js) and
the workload simulator's status-weight functions (simulator.js).

JavaScript objects used as string-keyed maps are embedded as association
lists (`List (String × _)`) with JS object-update semantics: updating an
existing key keeps its position, a fresh key is appended (insertion order).
Machine integers (epoch millis) are embedded as `Int`; the simulator's
decimal weight literals as exact rationals.
-/

set_option autoImplicit false

namespace AgenticWorkflow

/-- The closed status enumeration (the six statuses of the wire schema). -/
inductive Status where
  | queued
  | running
  | success
  | retry
  | hil
  | error
deriving DecidableEq, Repr

/-- The configured stage ids, in pipeline order (labels, used only by the UI,
are omitted). Source: the `AGENTS` constant of the app and of server.js. -/
def AGENTS : List String := ["EXTRACT", "CURATE", "AVAILS", "ROYALTIES"]

/-- The status strings accepted by the broker (server.js `STATUSES`). -/
def STATUSES : List String := ["queued", "running", "success", "retry", "hil", "error"]

/-- Per-(entity, stage) recorded state: `{ status, ts, details }`. -/
structure StageState where
  status : Status
  ts : Int
  details : String
deriving DecidableEq, Repr

/-- An entity ("contract"): id plus the string-keyed `agents` object. The key
set is the configured stages for entities built by `emptyContract`, but the
reconciler writes under `msg.agent` unchecked, so the embedding keeps the
key type open. -/
structure Entity where
  id : String
  agents : List (String × StageState)
deriving DecidableEq, Repr

/-- The fleet snapshot: the `contracts` object, entity id to entity. -/
abbrev Snapshot := List (String × Entity)

/-- JS whitespace test for the characters relevant to `String.prototype.trim`
(space, tab, line feed, carriage return). -/
def isWS (c : Char) : Bool :=
  c == ' ' || c == '\t' || c == '\n' || c == '\r'

/-- JS `s.trim()`: strip leading and trailing whitespace. -/
def jsTrim (s : String) : String :=
  String.mk (((s.data.dropWhile isWS).reverse.dropWhile isWS).reverse)

/-- JS object property read `m[k]`. -/
def lookupA {α : Type} : List (String × α) → String → Option α
  | [], _ => none
  | (k', v) :: rest, k => if k' = k then some v else lookupA rest k

/-- JS object property write `m[k] = v`: overwrite in place, else append. -/
def setA {α : Type} : List (String × α) → String → α → List (String × α)
  | [], k, v => [(k, v)]
  | (k', v') :: rest, k, v =>
      if k' = k then (k, v) :: rest else (k', v') :: setA rest k v

/-- `emptyContract(id)`: all four stages defaulted to queued at time `now`
(`now` stands for the `Date.now()` call inside the source function). -/
def emptyContract (id : String) (now : Int) : Entity :=
  { id := id
    agents := AGENTS.map (fun a => (a, { status := Status.queued, ts := now, details := "" })) }

/-- An inbound event as the reconciler sees it after JSON parsing. `agent` is
kept as a raw string because `onMessage` never validates it; `status` is the
closed enum (the broker validates it before broadcast). -/
structure Event where
  contractId : String
  agent : String
  status : Status
  details : Option String
  ts : Option Int
deriving DecidableEq, Repr

/--
The reconciler: the `onMessage` callback's state update, one event applied to
one snapshot. Returns `none` when the JS code throws (reading `.details` of
`undefined` when `msg.agent` is not a key of `cur.agents` and `msg.details`
is absent). Otherwise returns `(next, prevAfter)`:

* `next` is the snapshot passed to React (`{ ...prev }` with the entity
  rebound to `{ ...cur }`);
* `prevAfter` is the content of the *prior* snapshot after the call. When the
  entity already existed, `cur` aliases `prev[msg.contractId]` and
  `cur.agents[msg.agent] = {...}` mutates the shared `agents` object in
  place, so the prior snapshot's entity changes too; when the entity is
  fresh, only the new object is touched and `prevAfter = prev`.
-/
def applyJS (now : Int) (prev : Snapshot) (msg : Event) : Option (Snapshot × Snapshot) :=
  if jsTrim msg.contractId = "" then some (prev, prev)
  else
    let existing := lookupA prev msg.contractId
    let cur := existing.getD (emptyContract msg.contractId now)
    let newDetails : Option String :=
      match msg.details with
      | some d => some d
      | none => (lookupA cur.agents msg.agent).map (fun st => st.details)
    match newDetails with
    | none => none
    | some det =>
        let st : StageState := { status := msg.status, ts := msg.ts.getD now, details := det }
        let ent : Entity := { cur with agents := setA cur.agents msg.agent st }
        let next := setA prev msg.contractId ent
        let prevAfter := if existing.isSome then setA prev msg.contractId ent else prev
        some (next, prevAfter)

/-- Status of stage `a` on entity `c`: `c.agents[a]?.status || 'queued'`. -/
def statusOfD (c : Entity) (a : String) : Status :=
  ((lookupA c.agents a).map (fun st => st.status)).getD Status.queued

/-- The scan loop of `computeContractStage` over a list of stage ids. -/
def ccsGo (c : Entity) : List String → String × Status
  | [] => ("DONE", Status.success)
  | a :: rest =>
      let s := statusOfD c a
      if s = Status.success then ccsGo c rest else (a, s)

/-- `computeContractStage(contract)`: first stage in configured order whose
status is not success, else the DONE sentinel. -/
def computeContractStage (c : Entity) : String × Status :=
  ccsGo c AGENTS

/-- One stage's six status tallies (the `perAgent[a.id]` record). -/
structure PerAgent where
  queued : Nat
  running : Nat
  success : Nat
  retry : Nat
  hil : Nat
  error : Nat
deriving DecidableEq, Repr

def zeroPA : PerAgent :=
  { queued := 0, running := 0, success := 0, retry := 0, hil := 0, error := 0 }

/-- `perAgent[a.id][st] += 1`. -/
def bumpPA (pa : PerAgent) : Status → PerAgent
  | Status.queued => { pa with queued := pa.queued + 1 }
  | Status.running => { pa with running := pa.running + 1 }
  | Status.success => { pa with success := pa.success + 1 }
  | Status.retry => { pa with retry := pa.retry + 1 }
  | Status.hil => { pa with hil := pa.hil + 1 }
  | Status.error => { pa with error := pa.error + 1 }

/-- Sum of the six tallies of one stage record. -/
def sumPA (pa : PerAgent) : Nat :=
  pa.queued + pa.running + pa.success + pa.retry + pa.hil + pa.error

/-- Raw stage status without default: `c.agents[a]?.status` (an `Option`,
used by the strict `=== 'success'` / `=== 'error'` comparisons). -/
def stageStatusOpt (c : Entity) (a : String) : Option Status :=
  (lookupA c.agents a).map (fun st => st.status)

/-- `AGENTS.every(a => c.agents[a.id]?.status === 'success')`. -/
def allSuccessB (c : Entity) : Bool :=
  AGENTS.all (fun a => decide (stageStatusOpt c a = some Status.success))

/-- `AGENTS.some(a => c.agents[a.id]?.status === 'error')`. -/
def anyErrorB (c : Entity) : Bool :=
  AGENTS.any (fun a => decide (stageStatusOpt c a = some Status.error))

/-- The keys of the `current` object literal (`{queued, running, retry, hil,
error}`): the `current[status] !== undefined` membership test. -/
def currentHasKey : Status → Bool
  | Status.success => false
  | _ => true

/-- `perAgent[a.id][st] = (perAgent[a.id][st] || 0) + 1` for one stage `a`. -/
def updTally (c : Entity) (m : String → PerAgent) (a : String) : String → PerAgent :=
  fun k => if k = a then bumpPA (m a) (statusOfD c a) else m k

/-- The per-entity `for (const a of AGENTS)` tally loop of `summarize`. -/
def tallyOne (m : String → PerAgent) (c : Entity) : String → PerAgent :=
  AGENTS.foldl (updTally c) m

/-- Accumulator of `summarize`'s main loop. The source's `perAgent` and
`current` objects are embedded as total functions read only at their keys. -/
structure SumAcc where
  done : Nat
  failed : Nat
  current : Status → Nat
  perAgent : String → PerAgent
  perContractStage : List (String × String × Status)

def initAcc : SumAcc :=
  { done := 0
    failed := 0
    current := fun _ => 0
    perAgent := fun _ => zeroPA
    perContractStage := [] }

/-- One iteration of `summarize`'s `for (const c of values)` loop. -/
def stepAcc (acc : SumAcc) (c : Entity) : SumAcc :=
  let pa := tallyOne acc.perAgent c
  if allSuccessB c then
    { acc with
      done := acc.done + 1
      perAgent := pa
      perContractStage := acc.perContractStage ++ [(c.id, "DONE", Status.success)] }
  else
    let failed := if anyErrorB c then acc.failed + 1 else acc.failed
    let cs := computeContractStage c
    let current :=
      if currentHasKey cs.2 then
        (fun s => if s = cs.2 then acc.current s + 1 else acc.current s)
      else acc.current
    { acc with
      failed := failed
      perAgent := pa
      current := current
      perContractStage := acc.perContractStage ++ [(c.id, cs.1, cs.2)] }

/-- The record returned by `summarize`. -/
structure Summary where
  total : Nat
  active : Nat
  queued : Nat
  running : Nat
  retrying : Nat
  hil : Nat
  error : Nat
  done : Nat
  failed : Nat
  perAgent : String → PerAgent
  perContractStage : List (String × String × Status)

/-- The filtered `Object.values(allContracts)` of `summarize`. -/
def valuesOf (allContracts : Snapshot) : List Entity :=
  (allContracts.map Prod.snd).filter (fun c => decide (c.id ≠ "" ∧ jsTrim c.id ≠ ""))

/-- `summarize(allContracts)`: fleet-wide aggregation, recomputed from
scratch over the snapshot. -/
def summarize (allContracts : Snapshot) : Summary :=
  let values := valuesOf allContracts
  let total := values.length
  let acc := values.foldl stepAcc initAcc
  { total := total
    active := total - acc.done
    queued := acc.current Status.queued
    running := acc.current Status.running
    retrying := acc.current Status.retry
    hil := acc.current Status.hil
    error := acc.current Status.error
    done := acc.done
    failed := acc.failed
    perAgent := acc.perAgent
    perContractStage := acc.perContractStage }

/--
Operational model of `useWebSocket`'s mutable state. `stop` is
`stopRef.current`, `retries` is `retriesRef.current`, `timer` is the pending
`setTimeout(connect, delay)` (holding its delay) scheduled by `ws.onclose`,
`socketAlive` tracks whether the most recently constructed WebSocket is
open/openable, `opened` counts WebSocket constructions, `delivered` counts
invocations of the per-event callback.
-/
structure ClientState where
  stop : Bool
  connected : Bool
  retries : Nat
  timer : Option Nat
  socketAlive : Bool
  opened : Nat
  delivered : Nat
deriving DecidableEq, Repr

/-- Externally observable happenings driving `useWebSocket`: the socket's
open/close events, the backoff timer firing, a frame arriving, and the
effect cleanup (shutdown). -/
inductive CAction where
  | openEv
  | closeEv
  | fireEv
  | msgEv
  | shutdownEv
deriving DecidableEq, Repr

/-- `Math.min(1000 * Math.pow(2, retries), 8000)`. -/
def backoffDelay (r : Nat) : Nat := min (1000 * 2 ^ r) 8000

/-- The body of `connect()`: constructs a new WebSocket (unconditionally —
nothing in `connect` consults `stopRef`). -/
def connectJS (s : ClientState) : ClientState :=
  { s with socketAlive := true, opened := s.opened + 1 }

/--
One step of the client model, straight from the source handlers:
`onopen` sets connected and resets the retry counter; `onclose` clears
connected and, unless `stopRef` is set, schedules `setTimeout(connect,
min(1000 * 2^retries, 8000))` and then increments `retries`; the timer
firing runs `connect()` (the cleanup never calls `clearTimeout`, so firing
is possible whenever a timer is pending, `stop` notwithstanding); a frame
arriving on a live socket invokes the callback; the cleanup sets `stopRef`
and closes the current socket.
-/
def stepClient (s : ClientState) : CAction → ClientState
  | CAction.openEv =>
      if s.socketAlive then { s with connected := true, retries := 0 } else s
  | CAction.closeEv =>
      if s.socketAlive then
        let s1 := { s with connected := false, socketAlive := false }
        if s.stop then s1
        else { s1 with timer := some (backoffDelay s.retries), retries := s.retries + 1 }
      else s
  | CAction.fireEv =>
      match s.timer with
      | some _ => connectJS { s with timer := none }
      | none => s
  | CAction.msgEv =>
      if s.socketAlive then { s with delivered := s.delivered + 1 } else s
  | CAction.shutdownEv =>
      { s with stop := true, socketAlive := false }

def runClient (s : ClientState) (l : List CAction) : ClientState :=
  l.foldl stepClient s

/-- The state right after the effect mounts (it calls `connect()` once). -/
def initClient : ClientState :=
  connectJS
    { stop := false
      connected := false
      retries := 0
      timer := none
      socketAlive := false
      opened := 0
      delivered := 0 }

/-- `pickStatusBase`'s weight table, parameterized by `attempts`; the JS
decimal literals are embedded as exact rationals. -/
def baseWeight (attempts : Nat) : Status → ℚ
  | Status.queued => 10/100
  | Status.running => 45/100
  | Status.retry => 18/100
  | Status.hil => 7/100
  | Status.error => 10/100
  | Status.success => 10/100 + min (20/100) ((attempts : ℚ) * (3/100))

/-- `pickStatusAtFinal`'s `base` table before the boost. -/
def finalBase : Status → ℚ
  | Status.queued => 8/100
  | Status.running => 35/100
  | Status.retry => 18/100
  | Status.hil => 10/100
  | Status.error => 14/100
  | Status.success => 15/100

/-- `const boost = 0.25 + Math.min(0.35, attempts * 0.05)`. -/
def finalBoost (attempts : Nat) : ℚ :=
  25/100 + min (35/100) ((attempts : ℚ) * (5/100))

/-- `pickStatusAtFinal`'s weight table after the boost: the destined
outcome's entry gains `boost`; when the outcome is not success, the success
entry is scaled by 0.3. -/
def finalWeight (attempts : Nat) (finalOutcome : Status) (s : Status) : ℚ :=
  if finalOutcome = Status.success then
    (if s = Status.success then finalBase s + finalBoost attempts else finalBase s)
  else
    (if s = finalOutcome then finalBase s + finalBoost attempts
     else if s = Status.success then finalBase s * (30/100)
     else finalBase s)

/-- A raw event as the broker's `validateEvent` sees it (status still a
string; `contractId = \x22\x22` stands for a falsy/non-string id). -/
structure RawEvent where
  contractId : String
  agent : String
  status : String
  details : Option String
  ts : Option Int
deriving DecidableEq, Repr

/-- server.js `validateEvent`: returns the error message, or `none` when the
event is accepted. -/
def validateEvent (e : RawEvent) : Option String :=
  if e.contractId = "" then some "contractId (string) is required."
  else if !(AGENTS.contains e.agent) then
    some ("agent must be one of " ++ String.intercalate ", " AGENTS ++ ".")
  else if !(STATUSES.contains e.status) then
    some ("status must be one of " ++ String.intercalate ", " STATUSES ++ ".")
  else none

/-- The normalized payload the `/emit` route broadcasts for a valid item. -/
structure Payload where
  contractId : String
  agent : String
  status : String
  details : Option String
  ts : Int
deriving DecidableEq, Repr

def toPayload (now : Int) (e : RawEvent) : Payload :=
  { contractId := e.contractId
    agent := e.agent
    status := e.status
    details := e.details
    ts := e.ts.getD now }

/-- The list of payloads the `/emit` route broadcasts for a batch: items
passing `validateEvent`, normalized. -/
def emitPayloads (now : Int) (events : List RawEvent) : List Payload :=
  (events.filter (fun e => (validateEvent e).isNone)).map (toPayload now)

/-- Derived read: the full recorded StageState for (entity, stage) in a
snapshot. -/
def stageStateOf (s : Snapshot) (id a : String) : Option StageState :=
  (lookupA s id).bind (fun ent => lookupA ent.agents a)

/-- Derived read: the recorded status for (entity, stage) in a snapshot. -/
def stageOf (s : Snapshot) (id a : String) : Option Status :=
  (stageStateOf s id a).map (fun st => st.status)

/-- The previously recorded details for the event's (entity, stage), empty
when the entity or stage is unseen (matching `emptyContract`'s default). -/
def prevDetails (prev : Snapshot) (e : Event) : String :=
  ((stageStateOf prev e.contractId e.agent).map (fun st => st.details)).getD ""

/-- `n` repetitions of timer-fires-then-connection-fails. -/
def failCycles : Nat → List CAction
  | 0 => []
  | n + 1 => failCycles n ++ [CAction.fireEv, CAction.closeEv]

/-- The action trace of `k + 1` consecutive failed connection attempts from
a freshly mounted client: the first socket closes, then `k` times the
backoff timer fires and the resulting socket closes again. -/
def failTrace (k : Nat) : List CAction :=
  CAction.closeEv :: failCycles k

/-- Spec-side restatement of the current-stage view, following the spec's
words: the first stage in configured order whose status is not success,
paired with that status; the DONE sentinel when every stage is success.
Compared against the source's `computeContractStage`. -/
def currentStageSpec (c : Entity) : String × Status :=
  match AGENTS.find? (fun a => decide (statusOfD c a ≠ Status.success)) with
  | some a => (a, statusOfD c a)
  | none => ("DONE", Status.success)

/-- An event with a valid entity id but an unrecognized stage, carrying
details. -/
def c1Bogus : Event :=
  { contractId := "X", agent := "BOGUS", status := Status.queued, details := some "d", ts := some 0 }

/-- The same unrecognized-stage event without details. -/
def c1BogusNoDet : Event :=
  { contractId := "X", agent := "BOGUS", status := Status.queued, details := none, ts := some 0 }

/-- The snapshot produced by applying `c1Bogus` to the empty snapshot. -/
def c1next : Snapshot := ((applyJS 0 [] c1Bogus).getD ([], [])).1

/-- An event whose entity id is whitespace-only. -/
def c1Blank : Event :=
  { contractId := "  ", agent := "EXTRACT", status := Status.queued, details := none, ts := none }

/-- Shutdown arrives while the backoff timer is pending, then the timer
fires and a frame arrives on the newly opened socket. -/
def c2Trace : List CAction :=
  [CAction.closeEv, CAction.shutdownEv, CAction.fireEv, CAction.msgEv]

def c3e1 : Event :=
  { contractId := "E1", agent := "EXTRACT", status := Status.running, details := some "started", ts := some 1 }

def c3e2 : Event :=
  { contractId := "E1", agent := "EXTRACT", status := Status.success, details := some "ok", ts := some 2 }

/-- Snapshot holding entity E1 with EXTRACT running (handed to a reader). -/
def c3s1 : Snapshot := ((applyJS 0 [] c3e1).getD ([], [])).1

/-- What the prior snapshot `c3s1` holds after `c3e2` is applied to it. -/
def c3prevAfter : Snapshot := ((applyJS 0 c3s1 c3e2).getD ([], [])).2

def c4eErr : Event :=
  { contractId := "E1", agent := "EXTRACT", status := Status.error, details := some "boom", ts := some 1 }

def c4eFix : Event :=
  { contractId := "E1", agent := "EXTRACT", status := Status.success, details := some "fixed", ts := some 2 }

/-- Snapshot where E1's EXTRACT stage shows error. -/
def c4s1 : Snapshot := ((applyJS 0 [] c4eErr).getD ([], [])).1

/-- The same entity after the error stage was overwritten to success. -/
def c4s2 : Snapshot := ((applyJS 0 c4s1 c4eFix).getD ([], [])).1

/-- An entity with every configured stage success. -/
def c8Done : Entity :=
  { id := "W"
    agents := AGENTS.map (fun a => (a, { status := Status.success, ts := 0, details := "" })) }

/-- An entity with stage 1 success, stage 2 error, stages 3 and 4 queued. -/
def c8Mixed : Entity :=
  { id := "M"
    agents :=
      [("EXTRACT", { status := Status.success, ts := 0, details := "" }),
       ("CURATE", { status := Status.error, ts := 0, details := "" }),
       ("AVAILS", { status := Status.queued, ts := 0, details := "" }),
       ("ROYALTIES", { status := Status.queued, ts := 0, details := "" })] }

/-- A raw whitespace-only-id event as posted to the broker. -/
def c10raw : RawEvent :=
  { contractId := "   ", agent := "EXTRACT", status := "queued", details := none, ts := none }

/-- The same event as the reconciler receives it. -/
def c10evt : Event :=
  { contractId := "   ", agent := "EXTRACT", status := Status.queued, details := none, ts := none }

theorem lookupA_setA_self {α : Type} (m : List (String × α)) (k : String) (v : α) :
    lookupA (setA m k v) k = some v := by
  induction m with
  | nil => simp [setA, lookupA]
  | cons p rest ih =>
    obtain ⟨k', v'⟩ := p
    by_cases h : k' = k
    · subst h
      simp [setA, lookupA]
    · simp [setA, lookupA, h, ih]

theorem lookupA_map_pair {α : Type} (f : String → α) (l : List String) (a : String)
    (ha : a ∈ l) :
    lookupA (l.map (fun x => (x, f x))) a = some (f a) := by
  induction l with
  | nil => cases ha
  | cons x xs ih =>
    rcases List.mem_cons.mp ha with rfl | hmem
    · simp [lookupA]
    · by_cases h : x = a
      · subst h
        simp [lookupA]
      · simp [lookupA, h, ih hmem]

theorem lookupA_emptyContract (id : String) (now : Int) (a : String) (ha : a ∈ AGENTS) :
    lookupA (emptyContract id now).agents a
      = some { status := Status.queued, ts := now, details := "" } :=
  lookupA_map_pair _ AGENTS a ha

theorem runClient_append (s : ClientState) (l1 l2 : List CAction) :
    runClient s (l1 ++ l2) = runClient (runClient s l1) l2 := by
  simp [runClient, List.foldl_append]

/-- Closed form of the client state after `k + 1` consecutive failures. -/
theorem runClient_failTrace (k : Nat) :
    runClient initClient (failTrace k) =
      { stop := false
        connected := false
        retries := k + 1
        timer := some (backoffDelay k)
        socketAlive := false
        opened := k + 1
        delivered := 0 } := by
  induction k with
  | zero => rfl
  | succ n ih =>
    have hsplit : failTrace (n + 1) = failTrace n ++ [CAction.fireEv, CAction.closeEv] := by
      simp [failTrace, failCycles]
    rw [hsplit, runClient_append, ih]
    rfl

theorem stepAcc_perAgent (acc : SumAcc) (c : Entity) :
    (stepAcc acc c).perAgent = tallyOne acc.perAgent c := by
  unfold stepAcc
  by_cases h : allSuccessB c = true <;> simp [h]

theorem stepAcc_done (acc : SumAcc) (c : Entity) :
    (stepAcc acc c).done = acc.done + (if allSuccessB c then 1 else 0) := by
  unfold stepAcc
  by_cases h : allSuccessB c = true <;> simp [h]

theorem stepAcc_failed (acc : SumAcc) (c : Entity) :
    (stepAcc acc c).failed
      = acc.failed + (if anyErrorB c && !allSuccessB c then 1 else 0) := by
  unfold stepAcc
  by_cases h : allSuccessB c = true
  · simp [h]
  · by_cases h2 : anyErrorB c = true
    · simp [h, h2]
    · simp [h, h2]

theorem foldl_stepAcc_done (l : List Entity) (acc : SumAcc) :
    (l.foldl stepAcc acc).done = acc.done + l.countP (fun c => allSuccessB c) := by
  induction l generalizing acc with
  | nil => simp
  | cons c cs ih =>
    rw [List.foldl_cons, ih, stepAcc_done, List.countP_cons]
    by_cases h : allSuccessB c = true <;> simp [h] <;> omega

theorem foldl_stepAcc_failed (l : List Entity) (acc : SumAcc) :
    (l.foldl stepAcc acc).failed
      = acc.failed + l.countP (fun c => anyErrorB c && !allSuccessB c) := by
  induction l generalizing acc with
  | nil => simp
  | cons c cs ih =>
    rw [List.foldl_cons, ih, stepAcc_failed, List.countP_cons]
    by_cases h : (anyErrorB c && !allSuccessB c) = true <;> simp [h] <;> omega

theorem allSuccess_not_anyError (c : Entity) (h : allSuccessB c = true) :
    anyErrorB c = false := by
  simp only [allSuccessB, List.all_eq_true, decide_eq_true_eq] at h
  simp only [anyErrorB, List.any_eq_true, decide_eq_true_eq, Bool.eq_false_iff, ne_eq]
  rintro ⟨a, ha, herr⟩
  rw [h a ha] at herr
  cases herr

theorem anyError_and_not_allSuccess (c : Entity) :
    (anyErrorB c && !allSuccessB c) = anyErrorB c := by
  cases hb : allSuccessB c
  · simp
  · simp [allSuccess_not_anyError c hb]

theorem anyErrorB_iff (c : Entity) :
    anyErrorB c = true ↔ ∃ a ∈ AGENTS, stageStatusOpt c a = some Status.error := by
  simp [anyErrorB, List.any_eq_true]

theorem foldl_updTally_not_mem (c : Entity) (l : List String) (m : String → PerAgent)
    (a : String) (ha : a ∉ l) :
    (l.foldl (updTally c) m) a = m a := by
  induction l generalizing m with
  | nil => rfl
  | cons x xs ih =>
    have hax : a ≠ x := fun h => ha (h ▸ List.mem_cons_self x xs)
    have hxs : a ∉ xs := fun h => ha (List.mem_cons_of_mem x h)
    rw [List.foldl_cons, ih _ hxs]
    simp [updTally, hax]

theorem foldl_updTally_mem (c : Entity) (l : List String) (hnd : l.Nodup)
    (m : String → PerAgent) (a : String) (ha : a ∈ l) :
    (l.foldl (updTally c) m) a = bumpPA (m a) (statusOfD c a) := by
  induction l generalizing m with
  | nil => cases ha
  | cons x xs ih =>
    rw [List.foldl_cons]
    rcases List.mem_cons.mp ha with rfl | hmem
    · rw [foldl_updTally_not_mem c xs _ a (List.nodup_cons.mp hnd).1]
      simp [updTally]
    · have hax : a ≠ x := fun h => (List.nodup_cons.mp hnd).1 (h ▸ hmem)
      rw [ih (List.nodup_cons.mp hnd).2 _ hmem]
      simp [updTally, hax]

theorem tallyOne_at (m : String → PerAgent) (c : Entity) (a : String) (ha : a ∈ AGENTS) :
    tallyOne m c a = bumpPA (m a) (statusOfD c a) :=
  foldl_updTally_mem c AGENTS (by decide) m a ha

theorem sumPA_bumpPA (pa : PerAgent) (s : Status) : sumPA (bumpPA pa s) = sumPA pa + 1 := by
  cases s <;> simp [sumPA, bumpPA] <;> omega

theorem foldl_stepAcc_perAgent_sum (l : List Entity) (acc : SumAcc) (a : String)
    (ha : a ∈ AGENTS) :
    sumPA ((l.foldl stepAcc acc).perAgent a) = sumPA (acc.perAgent a) + l.length := by
  induction l generalizing acc with
  | nil => simp
  | cons c cs ih =>
    rw [List.foldl_cons, ih, stepAcc_perAgent, tallyOne_at _ _ _ ha, sumPA_bumpPA,
      List.length_cons]
    omega

theorem ccsGo_eq_find (c : Entity) (l : List String) :
    ccsGo c l =
      match l.find? (fun a => decide (statusOfD c a ≠ Status.success)) with
      | some a => (a, statusOfD c a)
      | none => ("DONE", Status.success) := by
  induction l with
  | nil => rfl
  | cons x xs ih =>
    by_cases h : statusOfD c x = Status.success
    · rw [List.find?_cons_of_neg _ (by simp [h])]
      rw [← ih]
      simp [ccsGo, h]
    · rw [List.find?_cons_of_pos _ (by simp [h])]
      simp [ccsGo, h]

theorem finalBoost_mono {a b : Nat} (h : a ≤ b) : finalBoost a ≤ finalBoost b := by
  unfold finalBoost
  have : ((a : ℚ)) * (5/100) ≤ ((b : ℚ)) * (5/100) := by
    apply mul_le_mul_of_nonneg_right _ (by norm_num)
    exact_mod_cast h
  exact add_le_add_left (min_le_min le_rfl this) _

theorem finalBoost_pos (a : Nat) : 0 < finalBoost a := by
  unfold finalBoost
  have h0 : (0 : ℚ) ≤ (a : ℚ) * (5/100) := by positivity
  have : (0 : ℚ) ≤ min (35/100) ((a : ℚ) * (5/100)) := le_min (by norm_num) h0
  linarith

theorem baseWeight_success_mono {a b : Nat} (h : a ≤ b) :
    baseWeight a Status.success ≤ baseWeight b Status.success := by
  unfold baseWeight
  have : ((a : ℚ)) * (3/100) ≤ ((b : ℚ)) * (3/100) := by
    apply mul_le_mul_of_nonneg_right _ (by norm_num)
    exact_mod_cast h
  exact add_le_add_left (min_le_min le_rfl this) _

/-- C1 counterexample: the event `c1Bogus` has a valid entity id but the
unrecognized stage BOGUS; applying it to the empty snapshot is not a no-op —
it creates entity X and records a StageState under the key BOGUS, outside
the configured stage set — and the variant without details makes the
reconciler throw (modelled as `none`) instead of ignoring the event. -/
theorem C1_counterexample :
    AGENTS.contains "BOGUS" = false ∧
    stageOf c1next "X" "BOGUS" = some Status.queued ∧
    c1next ≠ ([] : Snapshot) ∧
    applyJS 0 [] c1BogusNoDet = none := by decide

/-- C1 (amended): the reconciler validates only the entity id — an event
whose id does not trim to a non-empty string is a no-op that leaves the
snapshot unchanged and never throws. The stage is not validated: an event
with a valid id and an unrecognized stage is applied anyway, recording a
StageState under the unrecognized key when it carries details and throwing
when it does not. -/
theorem C1_only_id_validated (now : Int) (prev : Snapshot) (e : Event)
    (h : jsTrim e.contractId = "") :
    applyJS now prev e = some (prev, prev) ∧
    stageOf c1next "X" "BOGUS" = some Status.queued ∧
    applyJS 0 [] c1BogusNoDet = none := by
  refine ⟨by simp [applyJS, h], by decide, by decide⟩

/-- C1 witness: the whitespace-id event `c1Blank` is dropped without any
change to the empty snapshot. -/
theorem C1_only_id_validated_witness :
    jsTrim c1Blank.contractId = "" ∧ applyJS 0 [] c1Blank = some ([], []) :=
  ⟨by decide, (C1_only_id_validated 0 [] c1Blank (by decide)).1⟩

/-- C2: shutdown during an active backoff wait does not stop the pending
reconnection. On the trace close → shutdown → timer fires → frame arrives,
the model opens a second WebSocket after shutdown (`opened` goes from 1 to
2) and invokes the per-event callback again (`delivered` becomes 1), because
the effect cleanup sets `stopRef` and closes the current socket but never
clears the pending `setTimeout(connect, delay)`. -/
theorem C2_shutdown_leaves_pending_reconnect :
    initClient.opened = 1 ∧ initClient.delivered = 0 ∧
    (runClient initClient c2Trace).stop = true ∧
    (runClient initClient c2Trace).opened = 2 ∧
    (runClient initClient c2Trace).delivered = 1 := by decide

/-- C3: applying a valid event for an existing entity mutates the prior
snapshot: `cur` aliases the entity object of `prev` and the write
`cur.agents[msg.agent] = {...}` updates the shared agents object in place.
After applying `c3e2` to `c3s1`, the snapshot `c3s1` (already handed to a
reader) no longer shows EXTRACT running — it reads success. -/
theorem C3_prior_snapshot_mutated :
    stageOf c3s1 "E1" "EXTRACT" = some Status.running ∧
    stageOf c3prevAfter "E1" "EXTRACT" = some Status.success ∧
    c3prevAfter ≠ c3s1 := by decide

/-- C5 counterexample: after N = 1 consecutive failed attempt the scheduled
wait is 1000 ms = base · 2^0, not min(base · 2^1, cap) = 2000 ms as the
claim states — the source computes the delay from the counter before
incrementing it. -/
theorem C5_counterexample :
    (runClient initClient (failTrace 0)).timer = some 1000 ∧
    min (1000 * 2 ^ 1) 8000 = 2000 ∧
    (1000 : Nat) ≠ 2000 := by decide

/-- C5 (amended): after N ≥ 1 consecutive failed connection attempts the
wait scheduled before attempt N+1 equals min(base · 2^(N-1), cap) with
base = 1000 ms and cap = 8000 ms; a successful connection (onopen) resets
the attempt counter to 0, so the next post-failure wait is the base
delay 1000 ms. -/
theorem C5_backoff_off_by_one (N : Nat) (hN : 1 ≤ N) (s : ClientState)
    (halive : s.socketAlive = true) (hstop : s.stop = false) :
    (runClient initClient (failTrace (N - 1))).timer
      = some (min (1000 * 2 ^ (N - 1)) 8000) ∧
    (stepClient s CAction.openEv).retries = 0 ∧
    (stepClient (stepClient s CAction.openEv) CAction.closeEv).timer = some 1000 := by
  refine ⟨?_, ?_, ?_⟩
  · rw [runClient_failTrace]
    rfl
  · simp [stepClient, halive]
  · simp [stepClient, halive, hstop, backoffDelay]

/-- C5 witness: five consecutive failures from a fresh client schedule the
capped wait min(1000 · 2^4, 8000) = 8000 ms, and a success resets the
counter so the following failure schedules 1000 ms. -/
theorem C5_backoff_off_by_one_witness :
    (runClient initClient (failTrace 4)).timer = some 8000 ∧
    (stepClient initClient CAction.openEv).retries = 0 ∧
    (stepClient (stepClient initClient CAction.openEv) CAction.closeEv).timer
      = some 1000 := by
  obtain ⟨h1, h2, h3⟩ := C5_backoff_off_by_one 5 (by decide) initClient (by decide) (by decide)
  exact ⟨h1.trans (by decide), h2, h3⟩

/-- C4 counterexample: entity E1 recorded error at stage EXTRACT (summarize
counts failed = 1), then the stage was overwritten to success; the claim
says E1 is still counted failed, but summarize over the recovered snapshot
reports failed = 0. -/
theorem C4_counterexample :
    stageOf c4s1 "E1" "EXTRACT" = some Status.error ∧
    (summarize c4s1).failed = 1 ∧
    stageOf c4s2 "E1" "EXTRACT" = some Status.success ∧
    (summarize c4s2).failed = 0 ∧
    (summarize c4s2).total = 1 := by decide

/-- C4 (amended): summarize counts an entity in the failed bucket exactly
when some stage of the current snapshot (not necessarily the current stage)
shows status error. The count is recomputed from the snapshot, not from
history, so an entity whose error stage was overwritten to success is no
longer counted failed; and failed never overlaps done: an all-success
entity has no error stage, so failed + done ≤ total and failed ≤ active. -/
theorem C4_failed_from_current_snapshot (snap : Snapshot) :
    (summarize snap).failed = (valuesOf snap).countP (fun c => anyErrorB c) ∧
    (summarize snap).done = (valuesOf snap).countP (fun c => allSuccessB c) ∧
    (summarize snap).failed + (summarize snap).done ≤ (summarize snap).total ∧
    (summarize snap).failed ≤ (summarize snap).active := by
  have hfail : (summarize snap).failed = (valuesOf snap).countP (fun c => anyErrorB c) := by
    show ((valuesOf snap).foldl stepAcc initAcc).failed = _
    rw [foldl_stepAcc_failed]
    simp only [initAcc, Nat.zero_add]
    exact List.countP_congr (fun c _ => by rw [anyError_and_not_allSuccess])
  have hdone : (summarize snap).done = (valuesOf snap).countP (fun c => allSuccessB c) := by
    show ((valuesOf snap).foldl stepAcc initAcc).done = _
    rw [foldl_stepAcc_done]
    simp [initAcc]
  have htot : (summarize snap).total = (valuesOf snap).length := rfl
  have hact : (summarize snap).active = (summarize snap).total - (summarize snap).done := rfl
  have h1 : (valuesOf snap).countP (fun c => anyErrorB c)
      ≤ (valuesOf snap).countP (fun c => decide ¬(allSuccessB c = true)) :=
    List.countP_mono_left (fun c _ h => by
      simp only [decide_eq_true_eq]
      intro hb
      rw [allSuccess_not_anyError c hb] at h
      cases h)
  have h2 := List.length_eq_countP_add_countP (fun c => allSuccessB c) (valuesOf snap)
  refine ⟨hfail, hdone, ?_, ?_⟩
  · omega
  · omega

/-- C7: over every snapshot, done + active = total and, for each configured
stage, the six status tallies (all present, even when zero) sum to total;
over the empty fleet summarize is total and every count is zero. -/
theorem C7_summary_totals (snap : Snapshot) :
    (summarize snap).done + (summarize snap).active = (summarize snap).total ∧
    (∀ a, a ∈ AGENTS → sumPA ((summarize snap).perAgent a) = (summarize snap).total) ∧
    ((summarize ([] : Snapshot)).total = 0 ∧ (summarize ([] : Snapshot)).active = 0 ∧
     (summarize ([] : Snapshot)).queued = 0 ∧ (summarize ([] : Snapshot)).running = 0 ∧
     (summarize ([] : Snapshot)).retrying = 0 ∧ (summarize ([] : Snapshot)).hil = 0 ∧
     (summarize ([] : Snapshot)).error = 0 ∧ (summarize ([] : Snapshot)).done = 0 ∧
     (summarize ([] : Snapshot)).failed = 0) := by
  refine ⟨?_, ?_, by decide⟩
  · have hdone : (summarize snap).done = (valuesOf snap).countP (fun c => allSuccessB c) := by
      show ((valuesOf snap).foldl stepAcc initAcc).done = _
      rw [foldl_stepAcc_done]
      simp [initAcc]
    have hle := List.countP_le_length (p := fun c => allSuccessB c) (l := valuesOf snap)
    have htot : (summarize snap).total = (valuesOf snap).length := rfl
    have hact : (summarize snap).active = (summarize snap).total - (summarize snap).done := rfl
    omega
  · intro a ha
    show sumPA (((valuesOf snap).foldl stepAcc initAcc).perAgent a) = (valuesOf snap).length
    rw [foldl_stepAcc_perAgent_sum _ _ a ha]
    simp [initAcc, sumPA, zeroPA]

/-- C7 witness: the totals hold on a one-entity snapshot, and the EXTRACT
tallies sum to the total. -/
theorem C7_summary_totals_witness :
    (summarize [("D1", emptyContract "D1" 0)]).done
        + (summarize [("D1", emptyContract "D1" 0)]).active
        = (summarize [("D1", emptyContract "D1" 0)]).total ∧
    sumPA ((summarize [("D1", emptyContract "D1" 0)]).perAgent "EXTRACT")
        = (summarize [("D1", emptyContract "D1" 0)]).total :=
  ⟨(C7_summary_totals [("D1", emptyContract "D1" 0)]).1,
   (C7_summary_totals [("D1", emptyContract "D1" 0)]).2.1 "EXTRACT" (by decide)⟩

/-- C8: `computeContractStage` returns the first stage in configured order
whose status is not success, paired with that status (it coincides with the
spec-side `currentStageSpec`); when every configured stage is success it
returns the DONE sentinel, and an entity with stage 1 success, stage 2
error, stages 3 and 4 queued yields (CURATE, error). -/
theorem C8_current_stage_first_non_success (c : Entity) :
    computeContractStage c = currentStageSpec c ∧
    ((∀ a, a ∈ AGENTS → statusOfD c a = Status.success) →
      computeContractStage c = ("DONE", Status.success)) ∧
    (statusOfD c "EXTRACT" = Status.success → statusOfD c "CURATE" = Status.error →
     statusOfD c "AVAILS" = Status.queued → statusOfD c "ROYALTIES" = Status.queued →
      computeContractStage c = ("CURATE", Status.error)) := by
  refine ⟨ccsGo_eq_find c AGENTS, ?_, ?_⟩
  · intro h
    have h1 := h "EXTRACT" (by decide)
    have h2 := h "CURATE" (by decide)
    have h3 := h "AVAILS" (by decide)
    have h4 := h "ROYALTIES" (by decide)
    simp [computeContractStage, AGENTS, ccsGo, h1, h2, h3, h4]
  · intro h1 h2 h3 h4
    simp [computeContractStage, AGENTS, ccsGo, h1, h2]

/-- C8 witness: the all-success entity is DONE; the mixed entity's current
stage is (CURATE, error). -/
theorem C8_current_stage_witness :
    computeContractStage c8Done = ("DONE", Status.success) ∧
    computeContractStage c8Mixed = ("CURATE", Status.error) :=
  ⟨(C8_current_stage_first_non_success c8Done).2.1 (by decide),
   (C8_current_stage_first_non_success c8Mixed).2.2 (by decide) (by decide) (by decide)
     (by decide)⟩

/-- C9: the weight the simulator's per-tick status distribution assigns to
the entity's destined finalOutcome is monotonically non-decreasing in the
attempts counter, both in `pickStatusBase` and in `pickStatusAtFinal`, and
at the final stage the distribution is additionally biased toward the
outcome: its weight strictly exceeds the unboosted base entry. -/
theorem C9_outcome_weight_monotone (a b : Nat) (h : a ≤ b) (oc : Status) :
    baseWeight a oc ≤ baseWeight b oc ∧
    finalWeight a oc oc ≤ finalWeight b oc oc ∧
    finalBase oc < finalWeight a oc oc := by
  refine ⟨?_, ?_, ?_⟩
  · cases oc
    case success => exact baseWeight_success_mono h
    all_goals simp [baseWeight]
  · by_cases hoc : oc = Status.success
    · subst hoc
      simp only [finalWeight, if_pos]
      exact add_le_add_left (finalBoost_mono h) _
    · simp only [finalWeight, if_neg hoc, if_pos]
      exact add_le_add_left (finalBoost_mono h) _
  · by_cases hoc : oc = Status.success
    · subst hoc
      simp only [finalWeight, if_pos]
      exact lt_add_of_pos_right _ (finalBoost_pos a)
    · simp only [finalWeight, if_neg hoc, if_pos]
      exact lt_add_of_pos_right _ (finalBoost_pos a)

/-- C9 witness: with destined outcome error, the weights at 2 and 5
attempts are ordered and the final-stage weight exceeds the base entry. -/
theorem C9_outcome_weight_monotone_witness :
    baseWeight 2 Status.error ≤ baseWeight 5 Status.error ∧
    finalWeight 2 Status.error Status.error ≤ finalWeight 5 Status.error Status.error ∧
    finalBase Status.error < finalWeight 2 Status.error Status.error :=
  C9_outcome_weight_monotone 2 5 (by norm_num) Status.error

/-- C10: the broker's validator accepts the whitespace-only contract id
(any non-empty string is truthy), so the event is broadcast by `/emit`;
the reconciler's own trim check then drops it, leaving every snapshot
unchanged — the non-empty-trimmed-key invariant rests on the reconciler
alone. -/
theorem C10_whitespace_id_broker_accepts (prev : Snapshot) (now now2 : Int) :
    validateEvent c10raw = none ∧
    emitPayloads now [c10raw] = [toPayload now c10raw] ∧
    jsTrim c10raw.contractId = "" ∧
    applyJS now2 prev c10evt = some (prev, prev) := by
  have h : jsTrim c10evt.contractId = "" := by decide
  exact ⟨by decide, rfl, by decide, by simp [applyJS, h]⟩

/-- C6: for every valid event (entity id trimming to a non-empty string,
recognized stage) over a well-formed snapshot, apply overwrites the
referenced StageState unconditionally with the event's status — no
hypothesis relates the event's timestamp to the recorded one, so a later
arrival wins even with an equal or earlier timestamp — with the timestamp
defaulting to processing time when absent and the details keeping the
previous value when the event carries none. -/
theorem C6_last_write_wins (now : Int) (prev : Snapshot) (e : Event)
    (hid : ¬ (jsTrim e.contractId = ""))
    (hag : e.agent ∈ AGENTS)
    (hwf : ∀ id ent, lookupA prev id = some ent →
      ∀ a, a ∈ AGENTS → (lookupA ent.agents a).isSome = true) :
    ∃ p : Snapshot × Snapshot,
      applyJS now prev e = some p ∧
      stageStateOf p.1 e.contractId e.agent
        = some ⟨e.status, e.ts.getD now, e.details.getD (prevDetails prev e)⟩ := by
  have hempty := lookupA_emptyContract e.contractId now e.agent hag
  cases hex : lookupA prev e.contractId with
  | none =>
    cases hdet : e.details with
    | none =>
      simp only [applyJS, if_neg hid, hex, hdet, Option.getD_none, hempty, Option.map_some,
        Option.isSome_none]
      refine ⟨_, rfl, ?_⟩
      simp [stageStateOf, lookupA_setA_self, prevDetails, hex]
    | some d =>
      simp only [applyJS, if_neg hid, hex, hdet, Option.getD_none, Option.isSome_none]
      refine ⟨_, rfl, ?_⟩
      simp [stageStateOf, lookupA_setA_self]
  | some ent0 =>
    obtain ⟨st0, hst0⟩ := Option.isSome_iff_exists.mp (hwf _ _ hex e.agent hag)
    cases hdet : e.details with
    | none =>
      simp only [applyJS, if_neg hid, hex, hdet, Option.getD_some, hst0, Option.map_some,
        Option.isSome_some]
      refine ⟨_, rfl, ?_⟩
      simp [stageStateOf, lookupA_setA_self, prevDetails, hex, hst0]
    | some d =>
      simp only [applyJS, if_neg hid, hex, hdet, Option.getD_some, Option.isSome_some]
      refine ⟨_, rfl, ?_⟩
      simp [stageStateOf, lookupA_setA_self]

/-- C6 witness: a fresh event for an unseen entity on the empty snapshot
records (status running, the event timestamp, empty details). -/
theorem C6_last_write_wins_witness :
    ∃ p : Snapshot × Snapshot,
      applyJS 99 []
          { contractId := "W1", agent := "EXTRACT", status := Status.running,
            details := none, ts := some 5 }
        = some p ∧
      stageStateOf p.1 "W1" "EXTRACT" = some ⟨Status.running, 5, ""⟩ :=
  C6_last_write_wins 99 []
    { contractId := "W1", agent := "EXTRACT", status := Status.running,
      details := none, ts := some 5 }
    (by decide) (by decide) (by intro id ent h; cases h)

end AgenticWorkflow
